import Mathlib

/-!
Shallow embedding of pygrist_mini (src/pygrist_mini/__init__.py), a minimal
Grist API client, together with proofs about its request/response mapping.

The HTTP transport (the python `requests` library) is modelled as a function
from requests to responses; each client operation returns its python result
(as an `Except` over JSON values) together with the list of HTTP requests it
issued, so that frame properties ("zero requests are issued") are statable.
-/

/-- JSON values, the payloads the client builds and decodes.  Numbers are
modelled as rationals (every finite python int/float is one). -/
inductive Json where
  | null
  | bool (b : Bool)
  | num (n : ℚ)
  | str (s : String)
  | arr (elts : List Json)
  | obj (fields : List (String × Json))
deriving Repr

/-- Dictionary lookup, `j[k]` on a python dict; `none` on a missing key or a
non-dict value. -/
def Json.lookup : Json → String → Option Json
  | .obj kvs, k => kvs.lookup k
  | _, _ => none

/-- Lowercase hex digit, as used by python's json \uXXXX escapes. -/
def hexDigit (n : Nat) : Char :=
  if n < 10 then Char.ofNat (48 + n) else Char.ofNat (87 + n)

/-- Four lowercase hex digits, python's "%04x" for code points below 0x10000. -/
def toHex4 (n : Nat) : String :=
  String.mk [hexDigit (n / 4096 % 16), hexDigit (n / 256 % 16),
             hexDigit (n / 16 % 16), hexDigit (n % 16)]

/-- Escaping of one character inside a JSON string literal, following
python's json.dumps with its default ensure_ascii=True: everything outside
0x20..0x7e is escaped (characters beyond the basic multilingual plane, which
python writes as surrogate pairs, are not exercised here). -/
def escape_char (ch : Char) : String :=
  if ch = '"' then "\\\""
  else if ch = '\\' then "\\\\"
  else if ch = '\x08' then "\\b"
  else if ch = '\x0c' then "\\f"
  else if ch = '\n' then "\\n"
  else if ch = '\r' then "\\r"
  else if ch = '\t' then "\\t"
  else if ch.toNat < 32 ∨ 126 < ch.toNat then "\\u" ++ toHex4 ch.toNat
  else String.singleton ch

/-- A JSON string literal with surrounding quotes, python's
json.encoder.py_encode_basestring_ascii. -/
def json_dumps_str (s : String) : String :=
  "\"" ++ String.join (s.toList.map escape_char) ++ "\""

/-- Python's json.dumps with the default separators (a comma-space between
items, a colon-space after keys).  Integral numbers print like python ints;
non-integral numbers are not exercised by this client's serialized payloads
(only the filter dict and the noparse bool ever reach json.dumps). -/
def json_dumps : Json → String
  | .null => "null"
  | .bool b => if b then "true" else "false"
  | .num n => if n.den = 1 then toString n.num else toString n
  | .str s => json_dumps_str s
  | .arr elts => "[" ++ String.intercalate ", " (elts.attach.map (fun e => json_dumps e.1)) ++ "]"
  | .obj kvs =>
      "\x7b" ++ String.intercalate ", "
        (kvs.attach.map (fun kv => json_dumps_str kv.1.1 ++ ": " ++ json_dumps kv.1.2)) ++ "\x7d"
decreasing_by
  · have h := List.sizeOf_lt_of_mem e.2
    simp only [Json.arr.sizeOf_spec]
    omega
  · obtain ⟨⟨k, v⟩, hm⟩ := kv
    have h := List.sizeOf_lt_of_mem hm
    simp only [Prod.mk.sizeOf_spec] at h
    simp only [Json.obj.sizeOf_spec]
    omega

/-- HTTPError from the source: carries the response status code and the raw
response body text as message. -/
structure HTTPError where
  status_code : Nat
  message : String
deriving Repr, DecidableEq

/-- One HTTP request as handed to requests.request.  The timeout field
records the timeout argument passed to the transport: `none` when the call
site supplies no timeout (requests' default, an unbounded request). -/
structure HttpRequest where
  method : String
  url : String
  params : Option (List (String × String))
  headers : List (String × String)
  jsonBody : Option Json
  timeout : Option ℚ

/-- One HTTP response from the transport.  The jsonBody field is the result
of decoding the body as JSON: `none` when the body is not valid JSON, in
which case python's response.json() raises a decode error. -/
structure HttpResponse where
  status_code : Nat
  text : String
  jsonBody : Option Json

/-- The transport: what requests.request does.  Modelling it as a function
makes every client operation deterministic in the chosen transport. -/
def Transport : Type := HttpRequest → HttpResponse

/-- Failures a client operation can surface: the library's own HTTPError,
the underlying JSON decode error from response.json() on a non-JSON body,
and python's KeyError/TypeError from indexing a missing key or a non-dict. -/
inductive ClientError where
  | http (e : HTTPError)
  | jsonDecode
  | lookupError
deriving Repr, DecidableEq

/-- requests' response.ok, as implemented via raise_for_status: it is false
exactly for status codes in [400, 600) (client and server errors), and true
for everything else, including 1xx, 2xx and 3xx. -/
def response_ok (status_code : Nat) : Bool :=
  if 400 ≤ status_code ∧ status_code < 600 then false else true

/-- response.json(): the decoded body on success, a decode error otherwise. -/
def response_json (r : HttpResponse) : Except ClientError Json :=
  match r.jsonBody with
  | some j => Except.ok j
  | none => Except.error ClientError.jsonDecode

/-- Python's `j[k]`: the value at the key, or a KeyError/TypeError. -/
def getItem (j : Json) (k : String) : Except ClientError Json :=
  match j.lookup k with
  | some v => Except.ok v
  | none => Except.error ClientError.lookupError

/-- The client's configuration, stored verbatim by the constructor. -/
structure GristClient where
  root_url : String
  api_key : String
  doc_id : String
  timeout : Option ℚ

namespace GristClient

/-- The request that GristClient._request hands to requests.request: the
Accept and Authorization headers, the url root_url ++ "/api" ++ path, the
given query params and JSON body.  The source calls requests.request
without a timeout argument, so the request's timeout is `none` regardless
of the configured client timeout. -/
def build_request (c : GristClient) (method path : String)
    (query_params : Option (List (String × String))) (jsonBody : Option Json) :
    HttpRequest :=
  { method := method
    url := c.root_url ++ "/api" ++ path
    params := query_params
    headers := [("Accept", "application/json; charset=utf-8"),
                ("Authorization", "Bearer " ++ c.api_key)]
    jsonBody := jsonBody
    timeout := none }

/-- GristClient._request: build the request, send it, raise HTTPError with
the status code and body text when response.ok is false, else return the
response.  The second component lists the HTTP requests issued. -/
def _request (c : GristClient) (t : Transport) (method path : String)
    (query_params : Option (List (String × String))) (jsonBody : Option Json) :
    Except HTTPError HttpResponse × List HttpRequest :=
  let req := build_request c method path query_params jsonBody
  let response := t req
  if response_ok response.status_code then
    (Except.ok response, [req])
  else
    (Except.error ⟨response.status_code, response.text⟩, [req])

/-- GristClient._get_json: GET then response.json(). -/
def _get_json (c : GristClient) (t : Transport) (path : String)
    (query_params : Option (List (String × String))) :
    Except ClientError Json × List HttpRequest :=
  match _request c t "GET" path query_params none with
  | (Except.ok resp, reqs) => (response_json resp, reqs)
  | (Except.error e, reqs) => (Except.error (ClientError.http e), reqs)

/-- GristClient._patch_json: PATCH with a JSON body then response.json(). -/
def _patch_json (c : GristClient) (t : Transport) (path : String) (jsonBody : Json)
    (query_params : Option (List (String × String))) :
    Except ClientError Json × List HttpRequest :=
  match _request c t "PATCH" path query_params (some jsonBody) with
  | (Except.ok resp, reqs) => (response_json resp, reqs)
  | (Except.error e, reqs) => (Except.error (ClientError.http e), reqs)

/-- GristClient._post_json: POST with a JSON body then response.json(). -/
def _post_json (c : GristClient) (t : Transport) (path : String) (jsonBody : Json)
    (query_params : Option (List (String × String))) :
    Except ClientError Json × List HttpRequest :=
  match _request c t "POST" path query_params (some jsonBody) with
  | (Except.ok resp, reqs) => (response_json resp, reqs)
  | (Except.error e, reqs) => (Except.error (ClientError.http e), reqs)

/-- The query_params dict get_records builds: empty unless the filter dict
is given and non-empty (python truthiness of a dict), in which case it holds
the json.dumps-encoded filter under the `filter` key. -/
def get_records_query_params (filter : Option (List (String × List Json))) :
    List (String × String) :=
  match filter with
  | some f =>
    if f.isEmpty then []
    else [("filter", json_dumps (Json.obj (f.map (fun kv => (kv.1, Json.arr kv.2)))))]
  | none => []

/-- The GET request get_records builds: the records path for the table with
the query_params dict above. -/
def get_records_request (c : GristClient) (table_id : String)
    (filter : Option (List (String × List Json))) : HttpRequest :=
  build_request c "GET" ("/docs/" ++ c.doc_id ++ "/tables/" ++ table_id ++ "/records")
    (some (get_records_query_params filter))
    none

/-- GristClient.get_records: GET the records path (with the optional filter
query parameter) and return the "records" entry of the decoded body. -/
def get_records (c : GristClient) (t : Transport) (table_id : String)
    (filter : Option (List (String × List Json))) :
    Except ClientError Json × List HttpRequest :=
  match _get_json c t ("/docs/" ++ c.doc_id ++ "/tables/" ++ table_id ++ "/records")
      (some (get_records_query_params filter)) with
  | (Except.ok j, reqs) => (getItem j "records", reqs)
  | (Except.error e, reqs) => (Except.error e, reqs)

/-- The JSON body patch_records builds from its (row_id, fields) pairs. -/
def patch_records_body (data : List (Int × List (String × Json))) : Json :=
  Json.obj [("records",
    Json.arr (data.map (fun rf => Json.obj [("id", Json.num (rf.1 : ℚ)),
                                            ("fields", Json.obj rf.2)])))]

/-- GristClient.patch_records: on empty data return python None (modelled as
Json.null) without any request; otherwise PATCH the records body with the
json.dumps-encoded noparse query parameter.  The source returns the value of
self._patch_json, i.e. the decoded response body, despite its annotation. -/
def patch_records (c : GristClient) (t : Transport) (table_id : String)
    (data : List (Int × List (String × Json))) (noparse : Bool) :
    Except ClientError Json × List HttpRequest :=
  if data.isEmpty then (Except.ok Json.null, [])
  else
    _patch_json c t ("/docs/" ++ c.doc_id ++ "/tables/" ++ table_id ++ "/records")
      (patch_records_body data)
      (some [("noparse", json_dumps (Json.bool noparse))])

/-- The JSON body add_records builds from its field mappings. -/
def add_records_body (data : List (List (String × Json))) : Json :=
  Json.obj [("records", Json.arr (data.map (fun fields => Json.obj [("fields", Json.obj fields)])))]

/-- The POST request add_records issues for non-empty data. -/
def add_records_request (c : GristClient) (table_id : String)
    (data : List (List (String × Json))) (noparse : Bool) : HttpRequest :=
  build_request c "POST" ("/docs/" ++ c.doc_id ++ "/tables/" ++ table_id ++ "/records")
    (some [("noparse", json_dumps (Json.bool noparse))])
    (some (add_records_body data))

/-- GristClient.add_records: on empty data return the empty list without any
request; otherwise POST the records body with the noparse query parameter
and return rec["id"] for each rec in the "records" entry of the response. -/
def add_records (c : GristClient) (t : Transport) (table_id : String)
    (data : List (List (String × Json))) (noparse : Bool) :
    Except ClientError (List Json) × List HttpRequest :=
  if data.isEmpty then (Except.ok [], [])
  else
    match _post_json c t ("/docs/" ++ c.doc_id ++ "/tables/" ++ table_id ++ "/records")
        (add_records_body data)
        (some [("noparse", json_dumps (Json.bool noparse))]) with
    | (Except.error e, reqs) => (Except.error e, reqs)
    | (Except.ok ids_json, reqs) =>
      match getItem ids_json "records" with
      | Except.error e => (Except.error e, reqs)
      | Except.ok (Json.arr recs) =>
        match recs.mapM (fun rec => rec.lookup "id") with
        | some ids => (Except.ok ids, reqs)
        | none => (Except.error ClientError.lookupError, reqs)
      | Except.ok _ => (Except.error ClientError.lookupError, reqs)

/-- The POST request delete_records issues: the data/delete path with the
raw JSON array of ids as body and no query parameters. -/
def delete_records_request (c : GristClient) (table_id : String)
    (ids : List Int) : HttpRequest :=
  build_request c "POST" ("/docs/" ++ c.doc_id ++ "/tables/" ++ table_id ++ "/data/delete")
    none
    (some (Json.arr (ids.map (fun i => Json.num (i : ℚ)))))

/-- GristClient.delete_records: POST the raw id list (no empty-input
short-circuit) and return python None, discarding the decoded body that
_post_json produced. -/
def delete_records (c : GristClient) (t : Transport) (table_id : String)
    (ids : List Int) : Except ClientError Json × List HttpRequest :=
  match _post_json c t ("/docs/" ++ c.doc_id ++ "/tables/" ++ table_id ++ "/data/delete")
      (Json.arr (ids.map (fun i => Json.num (i : ℚ)))) none with
  | (Except.error e, reqs) => (Except.error e, reqs)
  | (Except.ok _, reqs) => (Except.ok Json.null, reqs)

/-- The body the sql method builds.  This follows the source line by line:
json_body["sql"] = query; if args is not None, json_body["args"] = args; if
timeout is not None, json_body["timeout"] = args — the source assigns args,
not timeout, so the "timeout" entry holds the python value of args (null
when args is None). -/
def sql_body (query : String) (args : Option (List (String × Json)))
    (timeout : Option ℚ) : Json :=
  Json.obj
    ([("sql", Json.str query)]
     ++ (match args with
         | some a => [("args", Json.obj a)]
         | none => [])
     ++ (match timeout with
         | some _ =>
           [("timeout", match args with
                        | some a => Json.obj a
                        | none => Json.null)]
         | none => []))

/-- GristClient.sql: POST the sql body to the sql path (no query parameters)
and return rec["fields"] for each rec in the "records" of the response. -/
def sql (c : GristClient) (t : Transport) (query : String)
    (args : Option (List (String × Json))) (timeout : Option ℚ) :
    Except ClientError (List Json) × List HttpRequest :=
  match _post_json c t ("/docs/" ++ c.doc_id ++ "/sql")
      (sql_body query args timeout) none with
  | (Except.error e, reqs) => (Except.error e, reqs)
  | (Except.ok j, reqs) =>
    match getItem j "records" with
    | Except.error e => (Except.error e, reqs)
    | Except.ok (Json.arr recs) =>
      match recs.mapM (fun rec => rec.lookup "fields") with
      | some fs => (Except.ok fs, reqs)
      | none => (Except.error ClientError.lookupError, reqs)
    | Except.ok _ => (Except.error ClientError.lookupError, reqs)

end GristClient

/-- One public client operation with its arguments, for stating properties
of arbitrary call sequences. -/
inductive GristOp where
  | get (table_id : String) (filter : Option (List (String × List Json)))
  | patch (table_id : String) (data : List (Int × List (String × Json))) (noparse : Bool)
  | add (table_id : String) (data : List (List (String × Json))) (noparse : Bool)
  | del (table_id : String) (ids : List Int)
  | sqlQuery (query : String) (args : Option (List (String × Json))) (timeout : Option ℚ)

/-- The client state after one public operation, together with the requests
the operation issued.  None of the source methods ever assigns to self, so
the post-state is the same configuration the client started with. -/
def runOp (c : GristClient) (t : Transport) : GristOp → GristClient × List HttpRequest
  | GristOp.get table_id filter => (c, (GristClient.get_records c t table_id filter).2)
  | GristOp.patch table_id data noparse => (c, (GristClient.patch_records c t table_id data noparse).2)
  | GristOp.add table_id data noparse => (c, (GristClient.add_records c t table_id data noparse).2)
  | GristOp.del table_id ids => (c, (GristClient.delete_records c t table_id ids).2)
  | GristOp.sqlQuery query args timeout => (c, (GristClient.sql c t query args timeout).2)

/-- The client state after a sequence of public operations. -/
def runOps (c : GristClient) (t : Transport) (ops : List GristOp) : GristClient :=
  ops.foldl (fun st op => (runOp st t op).1) c

/-- Proleptic Gregorian date (year, month, day) of the day `z` days after
1970-01-01: the standard civil-from-days computation, extensionally the
conversion CPython's datetime performs through its ordinal arithmetic.
All divisions are floor divisions, as in python. -/
def civil_from_days (z : Int) : Int × Int × Int :=
  let zs := z + 719468
  let era := Int.fdiv zs 146097
  let doe := zs - era * 146097
  let yoe := Int.fdiv (doe - Int.fdiv doe 1460 + Int.fdiv doe 36524 - Int.fdiv doe 146096) 365
  let y := yoe + era * 400
  let doy := doe - (365 * yoe + Int.fdiv yoe 4 - Int.fdiv yoe 100)
  let mp := Int.fdiv (5 * doy + 2) 153
  let d := doy - Int.fdiv (153 * mp + 2) 5 + 1
  let m := mp + (if mp < 10 then 3 else -9)
  (if m ≤ 2 then y + 1 else y, m, d)

/-- datetime.datetime.fromtimestamp(tstamp, tz).date() for a fixed-offset
zone, at whole-second resolution: shift the timestamp by the zone's UTC
offset (in seconds), floor-divide into days since the epoch, convert to a
civil date.  Fractional seconds only populate the microsecond field, which
.date() discards. -/
def fromtimestamp_date (tstamp : Int) (utcoffset_seconds : Int) : Int × Int × Int :=
  civil_from_days (Int.fdiv (tstamp + utcoffset_seconds) 86400)

/-- The zone the module stores in its UTC global, ZoneInfo("UTC"): offset
zero from UTC. -/
def UTC_offset_seconds : Int := 0

/-- timestamp_to_date from the source: fromtimestamp with tz=UTC, then
.date(). -/
def timestamp_to_date (tstamp : Int) : Int × Int × Int :=
  fromtimestamp_date tstamp UTC_offset_seconds

/-- The date component of the UTC datetime corresponding to a POSIX
timestamp, written directly: day number floor(tstamp / 86400) since the
epoch, as a civil date. -/
def utc_date_of_timestamp (tstamp : Int) : Int × Int × Int :=
  civil_from_days (Int.fdiv tstamp 86400)

/-- A concrete client configured without a timeout, for witnesses. -/
def demoClient : GristClient :=
  { root_url := "https://grist.example.com"
    api_key := "SECRETKEY"
    doc_id := "doc123"
    timeout := none }

/-- A concrete client configured with a 5-second timeout. -/
def timeoutClient : GristClient :=
  { root_url := "https://grist.example.com"
    api_key := "SECRETKEY"
    doc_id := "doc123"
    timeout := some 5 }

/-- A transport always answering 200 with an empty records array. -/
def okTransport : Transport :=
  fun _ => { status_code := 200, text := "ok"
             jsonBody := some (Json.obj [("records", Json.arr [])]) }

/-- A transport answering 200 with two records carrying ids 11 and 12. -/
def addTransport : Transport :=
  fun _ => { status_code := 200, text := "ok"
             jsonBody := some (Json.obj [("records",
               Json.arr [Json.obj [("id", Json.num 11)],
                         Json.obj [("id", Json.num 12)]])]) }

/-- A transport always answering 304 Not Modified with a JSON body. -/
def transport304 : Transport :=
  fun _ => { status_code := 304, text := "not modified"
             jsonBody := some (Json.obj [("records", Json.arr [])]) }

/-- A transport always answering 500 with a plain-text body. -/
def transport500 : Transport :=
  fun _ => { status_code := 500, text := "boom", jsonBody := none }

/-- A transport answering 200 with a JSON object body. -/
def doneTransport : Transport :=
  fun _ => { status_code := 200, text := "done-body"
             jsonBody := some (Json.obj [("done", Json.bool true)]) }

/-- A transport answering 200 with a body that is not valid JSON. -/
def textTransport : Transport :=
  fun _ => { status_code := 200, text := "not json", jsonBody := none }

/-- Two field mappings to add, for witnesses. -/
def sampleData : List (List (String × Json)) :=
  [[("a", Json.num 1)], [("b", Json.num 2)]]

/-- Helper: mapM' over the Option monad preserves length. -/
theorem mapM'_option_length {α β : Type} (f : α → Option β) :
    ∀ (l : List α) (l2 : List β), l.mapM' f = some l2 → l2.length = l.length := by
  intro l
  induction l with
  | nil =>
      intro l2 h
      simp only [List.mapM'_nil, Option.pure_def, Option.some.injEq] at h
      simp [← h]
  | cons a l ih =>
      intro l2 h
      simp only [List.mapM'_cons] at h
      cases hfa : f a with
      | none => rw [hfa] at h; simp at h
      | some b =>
          rw [hfa] at h
          cases hml : l.mapM' f with
          | none => rw [hml] at h; simp at h
          | some bs =>
              rw [hml] at h
              simp only [Option.pure_def, Option.bind_eq_bind, Option.some_bind,
                Option.some.injEq] at h
              subst h
              simp [ih bs hml]

/-- Helper: mapM over the Option monad preserves length. -/
theorem mapM_option_length {α β : Type} (f : α → Option β)
    (l : List α) (l2 : List β) (h : l.mapM f = some l2) : l2.length = l.length := by
  rw [← List.mapM'_eq_mapM] at h
  exact mapM'_option_length f l l2 h

namespace GristClient

/-- Helper: _post_json always issues exactly the one built POST request. -/
theorem post_json_requests (c : GristClient) (t : Transport) (path : String)
    (body : Json) (q : Option (List (String × String))) :
    (_post_json c t path body q).2 = [build_request c "POST" path q (some body)] := by
  unfold _post_json _request
  by_cases h : response_ok (t (build_request c "POST" path q (some body))).status_code <;>
    simp [h]

/-- Helper: _get_json always issues exactly the one built GET request. -/
theorem get_json_requests (c : GristClient) (t : Transport) (path : String)
    (q : Option (List (String × String))) :
    (_get_json c t path q).2 = [build_request c "GET" path q none] := by
  unfold _get_json _request
  by_cases h : response_ok (t (build_request c "GET" path q none)).status_code <;>
    simp [h]

/-- Helper: on a response requests deems ok, _post_json returns its decoded
body. -/
theorem post_json_ok (c : GristClient) (t : Transport) (path : String)
    (body : Json) (q : Option (List (String × String)))
    (hok : response_ok (t (build_request c "POST" path q (some body))).status_code = true) :
    _post_json c t path body q
      = (response_json (t (build_request c "POST" path q (some body))),
         [build_request c "POST" path q (some body)]) := by
  unfold _post_json _request
  simp [hok]

/-- Helper: on a response requests deems ok, _get_json returns its decoded
body. -/
theorem get_json_ok (c : GristClient) (t : Transport) (path : String)
    (q : Option (List (String × String)))
    (hok : response_ok (t (build_request c "GET" path q none)).status_code = true) :
    _get_json c t path q
      = (response_json (t (build_request c "GET" path q none)),
         [build_request c "GET" path q none]) := by
  unfold _get_json _request
  simp [hok]

/-- Helper: on a response requests deems not ok, _get_json surfaces the
HTTPError with the status code and body text. -/
theorem get_json_err (c : GristClient) (t : Transport) (path : String)
    (q : Option (List (String × String)))
    (herr : response_ok (t (build_request c "GET" path q none)).status_code = false) :
    _get_json c t path q
      = (Except.error (ClientError.http
           ⟨(t (build_request c "GET" path q none)).status_code,
            (t (build_request c "GET" path q none)).text⟩),
         [build_request c "GET" path q none]) := by
  unfold _get_json _request
  simp [herr]

end GristClient

/-- Sanity: the epoch timestamp falls on 1970-01-01. -/
example : timestamp_to_date 0 = (1970, 1, 1) := by decide

/-- Sanity: one second before the epoch falls on 1969-12-31. -/
example : timestamp_to_date (-1) = (1969, 12, 31) := by decide

/-- Sanity: the billennium timestamp falls on 2001-09-09. -/
example : timestamp_to_date 1000000000 = (2001, 9, 9) := by decide

/-- Claim C4: for every table_id (and noparse), patch_records on an empty
batch returns python None and add_records on an empty batch returns the
empty sequence, and both issue zero HTTP requests. -/
theorem C4_empty_batches_no_request (c : GristClient) (t : Transport)
    (table_id : String) (noparse : Bool) :
    GristClient.patch_records c t table_id [] noparse = (Except.ok Json.null, []) ∧
    GristClient.add_records c t table_id [] noparse = (Except.ok [], []) :=
  ⟨rfl, rfl⟩

/-- Claim C8: delete_records always issues exactly one POST request to the
data/delete path of the table, whose body is the raw JSON array of the ids
and which carries no query parameters; in particular an empty id list is
sent as the empty JSON array, with no empty-input short-circuit. -/
theorem C8_delete_records_raw_post (c : GristClient) (t : Transport)
    (table_id : String) (ids : List Int) :
    (GristClient.delete_records c t table_id ids).2
      = [GristClient.delete_records_request c table_id ids] ∧
    (GristClient.delete_records_request c table_id ids).method = "POST" ∧
    (GristClient.delete_records_request c table_id ids).url
      = c.root_url ++ "/api" ++ ("/docs/" ++ c.doc_id ++ "/tables/" ++ table_id ++ "/data/delete") ∧
    (GristClient.delete_records_request c table_id ids).params = none ∧
    (GristClient.delete_records_request c table_id ids).jsonBody
      = some (Json.arr (ids.map (fun i => Json.num (i : ℚ)))) ∧
    (GristClient.delete_records_request c table_id []).jsonBody = some (Json.arr []) := by
  refine ⟨?_, rfl, rfl, rfl, rfl, rfl⟩
  have h := GristClient.post_json_requests c t
    ("/docs/" ++ c.doc_id ++ "/tables/" ++ table_id ++ "/data/delete")
    (Json.arr (ids.map (fun i => Json.num (i : ℚ)))) none
  unfold GristClient.delete_records
  cases hp : GristClient._post_json c t
      ("/docs/" ++ c.doc_id ++ "/tables/" ++ table_id ++ "/data/delete")
      (Json.arr (ids.map (fun i => Json.num (i : ℚ)))) none with
  | mk r reqs =>
      rw [hp] at h
      cases r <;> simpa using h

/-- Claim C9: the configuration stored by the constructor (root_url,
api_key, doc_id, timeout) is unchanged after any sequence of public
operations against any transport. -/
theorem C9_config_immutable (root_url api_key doc_id : String) (timeout : Option ℚ)
    (t : Transport) (ops : List GristOp) :
    (runOps ⟨root_url, api_key, doc_id, timeout⟩ t ops).root_url = root_url ∧
    (runOps ⟨root_url, api_key, doc_id, timeout⟩ t ops).api_key = api_key ∧
    (runOps ⟨root_url, api_key, doc_id, timeout⟩ t ops).doc_id = doc_id ∧
    (runOps ⟨root_url, api_key, doc_id, timeout⟩ t ops).timeout = timeout := by
  have h : ∀ (ops2 : List GristOp) (c : GristClient), runOps c t ops2 = c := by
    intro ops2
    induction ops2 with
    | nil => intro c; rfl
    | cons op rest ih =>
        intro c
        have hop : (runOp c t op).1 = c := by cases op <;> rfl
        simp only [runOps, List.foldl_cons]
        rw [hop]
        exact ih c
  rw [h]
  exact ⟨rfl, rfl, rfl, rfl⟩

/-- Claim C10: timestamp_to_date returns the calendar date of the instant
in the UTC time zone: the civil date of the day number floor(t / 86400)
since the epoch, with no local-zone offset applied. -/
theorem C10_timestamp_to_date_is_utc (tstamp : Int) :
    timestamp_to_date tstamp = utc_date_of_timestamp tstamp := by
  unfold timestamp_to_date fromtimestamp_date utc_date_of_timestamp UTC_offset_seconds
  rw [Int.add_zero]

/-- Claim C1 (code bug): calling sql with query "SELECT 1", args None and
timeout 5 sends a body whose "timeout" entry is null — the python value of
args — rather than the number 5, because the source assigns
json_body["timeout"] = args. -/
theorem C1_sql_timeout_assigned_args :
    (GristClient.sql demoClient okTransport "SELECT 1" none (some 5)).2.map
        (fun r => r.jsonBody)
      = [some (Json.obj [("sql", Json.str "SELECT 1"), ("timeout", Json.null)])] ∧
    Json.null ≠ Json.num 5 := by
  refine ⟨rfl, fun h => Json.noConfusion h⟩

/-- Claim C2 (code bug): even on a client configured with timeout 5, the
request handed to the transport carries no timeout at all, because the
source calls requests.request without a timeout argument; indeed every
request built by _request has timeout none. -/
theorem C2_configured_timeout_never_applied :
    timeoutClient.timeout = some 5 ∧
    (GristClient.get_records timeoutClient okTransport "Table1" none).2.map
        HttpRequest.timeout = [none] ∧
    (∀ (c : GristClient) (t : Transport) (method path : String)
       (q : Option (List (String × String))) (b : Option Json),
      (GristClient._request c t method path q b).2.map HttpRequest.timeout = [none]) := by
  refine ⟨rfl, rfl, ?_⟩
  intro c t method path q b
  by_cases h : response_ok (t (GristClient.build_request c method path q b)).status_code = true
  all_goals unfold GristClient._request
  all_goals simp only [h, if_true, if_false, eq_self_iff_true, not_true, not_false_iff,
    List.map_cons, List.map_nil]
  all_goals simp [GristClient.build_request]

/-- Claim C6 (code bug): on non-empty data, patch_records returns the
decoded JSON body of the PATCH response — not python None as its annotation
promises — and it parses the body rather than discarding it, so a 200
response whose body is not JSON makes it raise a decode error. -/
theorem C6_patch_records_returns_parsed_body :
    (GristClient.patch_records demoClient doneTransport "Table1"
        [(1, [("a", Json.num 1)])] false).1
      = Except.ok (Json.obj [("done", Json.bool true)]) ∧
    Json.obj [("done", Json.bool true)] ≠ Json.null ∧
    (GristClient.patch_records demoClient textTransport "Table1"
        [(1, [("a", Json.num 1)])] false).1
      = Except.error ClientError.jsonDecode := by
  refine ⟨rfl, fun h => Json.noConfusion h, rfl⟩

/-- Counterexample to claim C3: a 304 Not Modified response has its status
outside [200,300), yet get_records raises no HTTPError — it returns the
records of the body — because requests' response.ok only fails for statuses
in [400,600). -/
theorem C3_counterexample_304 :
    (transport304 (GristClient.get_records_request demoClient "Table1" none)).status_code
      = 304 ∧
    ¬ (200 ≤ 304 ∧ 304 < 300) ∧
    (GristClient.get_records demoClient transport304 "Table1" none).1
      = Except.ok (Json.arr []) := by
  refine ⟨rfl, by decide, rfl⟩

/-- Claim C3 as amended: the internal request primitive raises HTTPError
with the response's status code and body text exactly when the status lies
in [400,600); any other status — in particular every status in [200,300) —
yields the response without an HTTPError.  The public operations inherit
this through the primitive: get_records surfaces that HTTPError for every
status in [400,600). -/
theorem C3_http_error_range (c : GristClient) (t : Transport)
    (method path : String) (q : Option (List (String × String))) (b : Option Json) :
    (400 ≤ (t (GristClient.build_request c method path q b)).status_code ∧
        (t (GristClient.build_request c method path q b)).status_code < 600 →
      (GristClient._request c t method path q b).1
        = Except.error ⟨(t (GristClient.build_request c method path q b)).status_code,
                        (t (GristClient.build_request c method path q b)).text⟩) ∧
    (¬ (400 ≤ (t (GristClient.build_request c method path q b)).status_code ∧
          (t (GristClient.build_request c method path q b)).status_code < 600) →
      (GristClient._request c t method path q b).1
        = Except.ok (t (GristClient.build_request c method path q b))) ∧
    (200 ≤ (t (GristClient.build_request c method path q b)).status_code ∧
        (t (GristClient.build_request c method path q b)).status_code < 300 →
      (GristClient._request c t method path q b).1
        = Except.ok (t (GristClient.build_request c method path q b))) ∧
    (∀ (table_id : String) (filter : Option (List (String × List Json))),
      400 ≤ (t (GristClient.get_records_request c table_id filter)).status_code ∧
          (t (GristClient.get_records_request c table_id filter)).status_code < 600 →
        (GristClient.get_records c t table_id filter).1
          = Except.error (ClientError.http
              ⟨(t (GristClient.get_records_request c table_id filter)).status_code,
               (t (GristClient.get_records_request c table_id filter)).text⟩)) := by
  refine ⟨fun h => ?_, fun h => ?_, fun h => ?_, fun table_id filter h => ?_⟩
  · unfold GristClient._request
    simp [response_ok, h]
  · unfold GristClient._request
    simp [response_ok, h]
  · unfold GristClient._request
    have h2 : ¬ (400 ≤ (t (GristClient.build_request c method path q b)).status_code ∧
        (t (GristClient.build_request c method path q b)).status_code < 600) := by
      intro hc
      omega
    simp [response_ok, h2]
  · have hreq : GristClient.build_request c "GET"
        ("/docs/" ++ c.doc_id ++ "/tables/" ++ table_id ++ "/records")
        (some (GristClient.get_records_query_params filter))
        none
        = GristClient.get_records_request c table_id filter := rfl
    have herr : response_ok
        (t (GristClient.get_records_request c table_id filter)).status_code = false := by
      simp [response_ok, h]
    have hget := GristClient.get_json_err c t
      ("/docs/" ++ c.doc_id ++ "/tables/" ++ table_id ++ "/records")
      (some (GristClient.get_records_query_params filter))
      (by rw [hreq]; exact herr)
    rw [hreq] at hget
    unfold GristClient.get_records
    rw [hget]

/-- Witness for C3_http_error_range at a concrete 500 response. -/
theorem C3_http_error_range_witness :
    (GristClient._request demoClient transport500 "GET" "/docs/doc123/sql" none none).1
      = Except.error ⟨500, "boom"⟩ :=
  (C3_http_error_range demoClient transport500 "GET" "/docs/doc123/sql" none none).1
    (by constructor <;> decide)

/-- Claim C5: for non-empty data, add_records POSTs the records body (one
fields wrapper per input mapping, in order) with the JSON-encoded noparse
query parameter, and returns the ids response["records"][i]["id"] in
response order; when the response's records array is parallel to the input,
the returned id sequence has length len(data). -/
theorem C5_add_records_parallel_ids (c : GristClient) (t : Transport)
    (table_id : String) (data : List (List (String × Json))) (noparse : Bool)
    (body : Json) (recs : List Json) (ids : List Json)
    (hne : data ≠ [])
    (hok : response_ok (t (GristClient.add_records_request c table_id data noparse)).status_code
      = true)
    (hjson : (t (GristClient.add_records_request c table_id data noparse)).jsonBody = some body)
    (hrecs : body.lookup "records" = some (Json.arr recs))
    (hids : recs.mapM (fun rec => rec.lookup "id") = some ids)
    (hpar : recs.length = data.length) :
    GristClient.add_records c t table_id data noparse
      = (Except.ok ids, [GristClient.add_records_request c table_id data noparse]) ∧
    ids.length = data.length ∧
    (GristClient.add_records_request c table_id data noparse).method = "POST" ∧
    (GristClient.add_records_request c table_id data noparse).params
      = some [("noparse", json_dumps (Json.bool noparse))] ∧
    (GristClient.add_records_request c table_id data noparse).jsonBody
      = some (Json.obj [("records",
          Json.arr (data.map (fun fields => Json.obj [("fields", Json.obj fields)])))]) := by
  have hlen := mapM_option_length _ recs ids hids
  have hne2 : data.isEmpty = false := by
    cases data with
    | nil => exact absurd rfl hne
    | cons a l => rfl
  refine ⟨?_, by rw [hlen, hpar], rfl, rfl, rfl⟩
  have hreq : GristClient.build_request c "POST"
      ("/docs/" ++ c.doc_id ++ "/tables/" ++ table_id ++ "/records")
      (some [("noparse", json_dumps (Json.bool noparse))])
      (some (GristClient.add_records_body data))
      = GristClient.add_records_request c table_id data noparse := rfl
  have hpost := GristClient.post_json_ok c t
    ("/docs/" ++ c.doc_id ++ "/tables/" ++ table_id ++ "/records")
    (GristClient.add_records_body data)
    (some [("noparse", json_dumps (Json.bool noparse))])
    (by rw [hreq]; exact hok)
  rw [hreq] at hpost
  unfold GristClient.add_records
  rw [hne2]
  simp only [Bool.false_eq_true, if_false]
  rw [hpost]
  have hrj : response_json (t (GristClient.add_records_request c table_id data noparse))
      = Except.ok body := by
    unfold response_json
    rw [hjson]
  rw [hrj]
  have hgi : getItem body "records" = Except.ok (Json.arr recs) := by
    unfold getItem
    rw [hrecs]
  dsimp only
  rw [hgi]
  dsimp only
  rw [hids]

/-- Witness for C5_add_records_parallel_ids: adding two field mappings
against a transport whose response carries ids 11 and 12. -/
theorem C5_add_records_parallel_ids_witness :
    GristClient.add_records demoClient addTransport "Table1" sampleData false
      = (Except.ok [Json.num 11, Json.num 12],
         [GristClient.add_records_request demoClient "Table1" sampleData false]) ∧
    ([Json.num 11, Json.num 12] : List Json).length = sampleData.length ∧
    (GristClient.add_records_request demoClient "Table1" sampleData false).method = "POST" ∧
    (GristClient.add_records_request demoClient "Table1" sampleData false).params
      = some [("noparse", json_dumps (Json.bool false))] ∧
    (GristClient.add_records_request demoClient "Table1" sampleData false).jsonBody
      = some (Json.obj [("records",
          Json.arr (sampleData.map (fun fields => Json.obj [("fields", Json.obj fields)])))]) :=
  C5_add_records_parallel_ids demoClient addTransport "Table1" sampleData false
    (Json.obj [("records", Json.arr [Json.obj [("id", Json.num 11)],
                                     Json.obj [("id", Json.num 12)]])])
    [Json.obj [("id", Json.num 11)], Json.obj [("id", Json.num 12)]]
    [Json.num 11, Json.num 12]
    (by simp [sampleData]) rfl rfl rfl rfl rfl

/-- Claim C7: get_records issues a GET to the records path of the table,
sending the JSON-encoded filter as the `filter` query parameter when the
filter is given and non-empty — on the example filter the encoded string is
exactly the claimed one — and returns the "records" entry of the decoded
response body. -/
theorem C7_get_records_spec (c : GristClient) (t : Transport) (table_id : String)
    (filter : Option (List (String × List Json))) (body recsJson : Json)
    (hok : response_ok (t (GristClient.get_records_request c table_id filter)).status_code
      = true)
    (hjson : (t (GristClient.get_records_request c table_id filter)).jsonBody = some body)
    (hrecs : body.lookup "records" = some recsJson) :
    GristClient.get_records c t table_id filter
      = (Except.ok recsJson, [GristClient.get_records_request c table_id filter]) ∧
    (GristClient.get_records_request c table_id filter).method = "GET" ∧
    (GristClient.get_records_request c table_id filter).url
      = c.root_url ++ "/api" ++ ("/docs/" ++ c.doc_id ++ "/tables/" ++ table_id ++ "/records") ∧
    (GristClient.get_records_request c table_id
        (some [("status", [Json.str "open", Json.str "pending"])])).params
      = some [("filter", "\x7b\"status\": [\"open\", \"pending\"]\x7d")] := by
  refine ⟨?_, rfl, rfl, ?_⟩
  · have hreq : GristClient.build_request c "GET"
        ("/docs/" ++ c.doc_id ++ "/tables/" ++ table_id ++ "/records")
        (some (GristClient.get_records_query_params filter))
        none
        = GristClient.get_records_request c table_id filter := rfl
    have hget := GristClient.get_json_ok c t
      ("/docs/" ++ c.doc_id ++ "/tables/" ++ table_id ++ "/records")
      (some (GristClient.get_records_query_params filter))
      (by rw [hreq]; exact hok)
    rw [hreq] at hget
    unfold GristClient.get_records
    rw [hget]
    have hrj : response_json (t (GristClient.get_records_request c table_id filter))
        = Except.ok body := by
      unfold response_json
      rw [hjson]
    rw [hrj]
    have hgi : getItem body "records" = Except.ok recsJson := by
      unfold getItem
      rw [hrecs]
    dsimp only
    rw [hgi]
  · simp only [GristClient.get_records_request, GristClient.get_records_query_params,
      GristClient.build_request]
    simp [json_dumps, json_dumps_str, escape_char, String.join]
    rfl

/-- Witness for C7_get_records_spec: a GET with no filter against a
transport answering an empty records array. -/
theorem C7_get_records_spec_witness :
    GristClient.get_records demoClient okTransport "Table1" none
      = (Except.ok (Json.arr []),
         [GristClient.get_records_request demoClient "Table1" none]) ∧
    (GristClient.get_records_request demoClient "Table1" none).method = "GET" ∧
    (GristClient.get_records_request demoClient "Table1" none).url
      = demoClient.root_url ++ "/api"
        ++ ("/docs/" ++ demoClient.doc_id ++ "/tables/" ++ "Table1" ++ "/records") ∧
    (GristClient.get_records_request demoClient "Table1"
        (some [("status", [Json.str "open", Json.str "pending"])])).params
      = some [("filter", "\x7b\"status\": [\"open\", \"pending\"]\x7d")] :=
  C7_get_records_spec demoClient okTransport "Table1" none
    (Json.obj [("records", Json.arr [])]) (Json.arr []) rfl rfl rfl
